import Mathlib

/-!
# Verification of the voice2email application core (src/app.py)

Shallow embedding of the single-file Streamlit application `app.py`:
an audio-recording / transcription / summarization / email pipeline gated
by a shared password and driven by a re-render loop.

Modelling conventions:

* The Streamlit session state (`st.session_state`) is an explicit record
  `SessionState`.  Every key the program touches is a field; a field of
  type `Option α` whose value is `none` models the key being absent from
  the session dictionary (Python raises on reading an absent key, but the
  program always initializes a key before reading it, so total `getD`
  reads are faithful).
* One re-render cycle of the script is one evaluation of `app_run` (the
  module-level dispatch at the bottom of app.py) or of `main_app`.  The
  ambient inputs of a cycle — the current JST date, the contents of the
  e-mail text box, the recording held by the `audiorecorder` widget, the
  login button / password box — are explicit arguments.
* External network services (OpenAI Whisper, OpenAI chat completion, the
  Brevo SMTP relay) are modelled by outcome oracles of type `Except`:
  `Except.ok v` models the call returning `v`, `Except.error e` models the
  call raising an exception with message `e`.  A failing SMTP interaction
  is modelled as failing at connection time; the claims below only depend
  on whether the Mail client was invoked and on the envelope passed to
  `sendmail`, neither of which is affected by the exact failure point.
* All user-visible output (st.title / st.info / st.warning / st.error /
  st.success / widgets) and every external call is recorded in an ordered
  trace of `Effect`s produced by the cycle.
* `st.stop()` and `st.rerun()` abort the rest of the script; a cycle
  therefore also returns an `Exit` marker and, on `stopped` / `rerun`,
  the effects that would have been emitted after the aborting call are
  absent from the trace.
* `hashlib.sha256(wav).hexdigest()` composed with the WAV export of the
  recording is a pure deterministic function of the recording's byte
  payload; it is modelled as an abstract parameter
  `hashFn : List Nat → String` applied to the recording's bytes
  (the claims use the digest only as an equality oracle).
* Python `str.strip()` is modelled by `pyStrip`; Python falsiness of
  a string (`if email_to`) is the test against `""`, and falsiness of an
  `Optional[str]` (`if st.session_state.last_audio_hash`) is `none` or
  `some ""`.
-/

/-- A Python `datetime.date`: comparison is lexicographic on
(year, month, day). -/
structure PyDate where
  year : Nat
  month : Nat
  day : Nat
  deriving DecidableEq, Repr

/-- `a < b` on Python dates (lexicographic). `today > expiration_date`
in app.py is `PyDate.lt expiration_date today`. -/
def PyDate.lt (a b : PyDate) : Bool :=
  Nat.blt a.year b.year ||
    (a.year == b.year &&
      (Nat.blt a.month b.month ||
        (a.month == b.month && Nat.blt a.day b.day)))

/-- An in-memory audio clip produced by the `audiorecorder` widget.
`bytes` is the WAV-exported byte payload (each entry one byte),
`len` models Python `len(audio_segment)` (the clip duration in ms). -/
structure Recording where
  bytes : List Nat
  len : Nat
  deriving DecidableEq, Repr

/-- The SMTP / sender configuration globals of app.py, as used at run
time by `send_email` and `main_app` (assumed present, as the spec's
runtime sections do). -/
structure SmtpConfig where
  BREVO_SERVER : String
  BREVO_PORT : Int
  BREVO_USER : String
  BREVO_PASSWORD : String
  BREVO_SENDER : String
  deriving DecidableEq, Repr

/-- The MIME message assembled by `send_email` (lines 106-110):
`From` header, `To` header, `Subject`, and the attached text/plain body. -/
structure MimeMessage where
  fromHeader : String
  toHeader : String
  subject : String
  body : String
  deriving DecidableEq, Repr

/-- One observable step of a re-render cycle: a UI output or an external
interaction, in program order. -/
inductive Effect where
  | title (s : String)
  | subheader (s : String)
  | writeText (s : String)
  | textInput (label : String)
  | textArea (label value : String)
  | info (s : String)
  | warning (s : String)
  | error (s : String)
  | success (s : String)
  | callTranscribe (wavBytes : List Nat)
  | callSummarize (text : String)
  | smtpConnect (server : String) (port : Int)
  | smtpLogin (user : String)
  | sendmail (envelopeFrom : String) (toAddr : String) (message : MimeMessage)
  deriving DecidableEq, Repr

/-- How the script run ended: ran to the bottom, aborted by `st.stop()`,
or aborted by `st.rerun()` (which forces one more re-render). -/
inductive Exit where
  | normal
  | stopped
  | rerun
  deriving DecidableEq, Repr

/-- `st.session_state`.  `none` in an `Option` field models the key being
absent from the session dictionary. -/
structure SessionState where
  password_correct : Option Bool
  transcribed_text : Option String
  summary_text : Option String
  /-- outer `none` = key absent; `some none` = key present holding
  Python `None`; `some (some h)` = key present holding hash `h`. -/
  last_audio_hash : Option (Option String)
  processing_done : Option Bool
  deriving DecidableEq, Repr

/-- Module-level session-state initialization, app.py lines 38-43:
each of the three keys is set to its default only if absent. -/
def module_init (s : SessionState) : SessionState :=
  { s with
    password_correct := some (s.password_correct.getD false)
    transcribed_text := some (s.transcribed_text.getD "")
    summary_text := some (s.summary_text.getD "") }

/-- `initialize_session_state`, app.py lines 49-55: sets
`transcribed_text`/`summary_text` to `""` and `last_audio_hash` to `None`
only when the key is absent. -/
def initialize_session_state (s : SessionState) : SessionState :=
  { s with
    transcribed_text := some (s.transcribed_text.getD "")
    summary_text := some (s.summary_text.getD "")
    last_audio_hash := some (s.last_audio_hash.getD none) }

/-- Python `str.strip()`: drop leading and trailing whitespace. -/
def pyStrip (s : String) : String :=
  String.mk
    (((s.data.dropWhile Char.isWhitespace).reverse.dropWhile
        Char.isWhitespace).reverse)

/-- `transcribe_audio`, app.py lines 65-84: invokes the Whisper
transcription service on the recording's WAV bytes.  On success returns
the transcript text; on an exception returns `""` after showing an
error.  The pair is (returned string, emitted effects). -/
def transcribe_audio (wavBytes : List Nat)
    (outcome : Except String String) : String × List Effect :=
  match outcome with
  | Except.ok t => (t, [Effect.callTranscribe wavBytes])
  | Except.error e =>
      ("", [Effect.callTranscribe wavBytes,
            Effect.error ("文字起こし中にエラーが発生しました: " ++ e)])

/-- `summarize_text`, app.py lines 87-101: invokes the chat-completion
summarization service on `text`.  On success returns the summary; on an
exception returns `""` after showing an error. -/
def summarize_text (text : String)
    (outcome : Except String String) : String × List Effect :=
  match outcome with
  | Except.ok content => (content, [Effect.callSummarize text])
  | Except.error e =>
      ("", [Effect.callSummarize text,
            Effect.error ("要約中にエラーが発生しました: " ++ e)])

/-- `send_email`, app.py lines 103-122: builds a MIME message whose
`From` header is the `from_address` argument (line 107), then connects,
authenticates, and calls `server.sendmail` with the configured
`BREVO_SENDER` as envelope sender (line 118).  Any exception is caught
and shown as an error. -/
def send_email (cfg : SmtpConfig) (outcome : Except String Unit)
    (to_address subject body from_address : String) : List Effect :=
  let msg : MimeMessage :=
    { fromHeader := from_address, toHeader := to_address
      subject := subject, body := body }
  match outcome with
  | Except.ok _ =>
      [Effect.smtpConnect cfg.BREVO_SERVER cfg.BREVO_PORT,
       Effect.smtpLogin cfg.BREVO_USER,
       Effect.sendmail cfg.BREVO_SENDER to_address msg,
       Effect.success "Emailを正常に送信しました！"]
  | Except.error e =>
      [Effect.smtpConnect cfg.BREVO_SERVER cfg.BREVO_PORT,
       Effect.error ("Email送信中にエラーが発生しました: " ++ e)]

/-- The fixed expiration date, app.py line 144. -/
def expiration_date : PyDate := { year := 2025, month := 10, day := 10 }

/-- The static UI emitted by `main_app` before the audio block
(lines 159-180): title, address field, recorder prompts. -/
def preUI : List Effect :=
  [Effect.title "🎙️ 音声文字起こし＆要約Email送信アプリ",
   Effect.subheader "1. Emailの送り先を入力",
   Effect.textInput "Emailアドレス",
   Effect.subheader "2. 音声を録音",
   Effect.writeText "下のマイクアイコンをクリックして録音を開始・停止します。"]

/-- The UI emitted after the audio block on a cycle that runs to the
bottom (lines 224-234): the two result areas, and the completion banner
shown whenever `last_audio_hash` is truthy. -/
def displayTail (s : SessionState) : List Effect :=
  [Effect.subheader "3. 文字起こし結果",
   Effect.textArea "結果" (s.transcribed_text.getD ""),
   Effect.subheader "4. 要約結果",
   Effect.textArea "要約結果" (s.summary_text.getD "")] ++
  (match s.last_audio_hash.getD none with
   | some h => if h ≠ "" then
       [Effect.success "録音 → 文字起こし → 要約 → Email送信が完了しました！"]
     else []
   | none => [])

/-- The pipeline body of `main_app`'s detection block, lines 189-216:
clear previous results, transcribe, conditionally summarize,
conditionally send, then record the new hash.  Returns the updated state
and the block's own effects; the caller pairs it with `Exit.rerun`
(line 219). -/
def process_new_recording (cfg : SmtpConfig) (email_to : String)
    (transcribeOutcome summarizeOutcome : Except String String)
    (sendOutcome : Except String Unit)
    (r : Recording) (current_hash : String)
    (s : SessionState) : SessionState × List Effect :=
  let s1 : SessionState := { s with transcribed_text := some ""
                                    summary_text := some "" }
  let t := transcribe_audio r.bytes transcribeOutcome
  let s2 : SessionState := { s1 with transcribed_text := some t.1 }
  let step3 : SessionState × List Effect :=
    if pyStrip t.1 ≠ "" then
      let sm := summarize_text t.1 summarizeOutcome
      ({ s2 with summary_text := some sm.1 }, sm.2)
    else
      ({ s2 with summary_text := some "" },
       [Effect.warning "文字起こしが失敗しました。"])
  let step4 : List Effect :=
    if email_to ≠ "" ∧ pyStrip (step3.1.summary_text.getD "") ≠ "" then
      send_email cfg sendOutcome email_to "【自動送信】音声メモの要約"
        (step3.1.summary_text.getD "") cfg.BREVO_SENDER
    else
      [Effect.warning "メールアドレスが未入力、または要約が空です。"]
  ({ step3.1 with last_audio_hash := some (some current_hash) },
   Effect.info "新しい音声を検出しました。文字起こし → 要約 → Email送信を開始します…"
     :: (t.2 ++ step3.2 ++ step4))

/-- `main_app`, app.py lines 142-234: one re-render cycle of the
authenticated view.  Checks the expiration date (stopping the script if
past), initializes session state, and runs the detection block on the
current recording. -/
def main_app (cfg : SmtpConfig) (hashFn : List Nat → String)
    (today : PyDate) (email_to : String) (audio : Option Recording)
    (transcribeOutcome summarizeOutcome : Except String String)
    (sendOutcome : Except String Unit)
    (s0 : SessionState) : SessionState × List Effect × Exit :=
  if PyDate.lt expiration_date today then
    (s0,
     [Effect.error "このアプリケーションの利用期限（2025年10月10日）は終了しました。",
      Effect.info "ご利用ありがとうございました。"],
     Exit.stopped)
  else
    let s := initialize_session_state s0
    match audio with
    | some r =>
        if 0 < r.len then
          let current_hash := hashFn r.bytes
          if s.last_audio_hash.getD none ≠ some current_hash then
            let p := process_new_recording cfg email_to transcribeOutcome
              summarizeOutcome sendOutcome r current_hash s
            (p.1, preUI ++ p.2, Exit.rerun)
          else
            (s, preUI ++ displayTail s, Exit.normal)
        else
          let s2 : SessionState := { s with processing_done := some false }
          (s2, preUI ++ displayTail s2, Exit.normal)
    | none =>
        let s2 : SessionState := { s with processing_done := some false }
        (s2, preUI ++ displayTail s2, Exit.normal)

/-- `check_password`, app.py lines 127-137: the authentication page.
`login_clicked` and `password` model the button and the text box on this
cycle. -/
def check_password (PASS_KEY : String) (login_clicked : Bool)
    (password : String) (s : SessionState) :
    SessionState × List Effect × Exit :=
  let ui : List Effect :=
    [Effect.title "認証ページ", Effect.textInput "パスワードを入力してください"]
  if login_clicked then
    if password == PASS_KEY then
      ({ s with password_correct := some true }, ui, Exit.rerun)
    else
      (s, ui ++ [Effect.error "パスワードが間違っています。"], Exit.normal)
  else
    (s, ui, Exit.normal)

/-- The module entry, app.py lines 38-43 and 239-242: initialize the
session keys, then dispatch on `password_correct` to the main view or
the authentication page. -/
def app_run (cfg : SmtpConfig) (PASS_KEY : String)
    (hashFn : List Nat → String)
    (today : PyDate) (email_to : String) (audio : Option Recording)
    (login_clicked : Bool) (password : String)
    (transcribeOutcome summarizeOutcome : Except String String)
    (sendOutcome : Except String Unit)
    (s0 : SessionState) : SessionState × List Effect × Exit :=
  let s := module_init s0
  if s.password_correct.getD false then
    main_app cfg hashFn today email_to audio transcribeOutcome
      summarizeOutcome sendOutcome s
  else
    check_password PASS_KEY login_clicked password s

/-! ## Configuration loading (app.py lines 17-35) -/

/-- The module-level configuration globals after the try/except block.
A field is `none` when the corresponding lookup returned Python `None`
(missing from the environment); `BREVO_PORT` is already converted by
`int(...)`. -/
structure AppConfig where
  OPENAI_API_KEY : Option String
  PASS_KEY : Option String
  BREVO_SERVER : Option String
  BREVO_PORT : Int
  BREVO_USER : Option String
  BREVO_PASSWORD : Option String
  BREVO_SENDER : Option String
  deriving DecidableEq, Repr

/-- Decimal digit accumulator for `pyInt?`. -/
def parseDigits : List Char → Nat → Option Nat
  | [], acc => some acc
  | c :: rest, acc =>
      if c.isDigit then parseDigits rest (acc * 10 + (c.toNat - 48))
      else none

/-- Python `int(s)` on a string: strip surrounding whitespace, then parse
an optionally signed, non-empty decimal numeral. -/
def pyInt? (s : String) : Option Int :=
  match (pyStrip s).data with
  | [] => none
  | '-' :: rest =>
      if rest.isEmpty then none
      else (parseDigits rest 0).map (fun n => -(n : Int))
  | '+' :: rest =>
      if rest.isEmpty then none
      else (parseDigits rest 0).map (fun n => (n : Int))
  | cs => (parseDigits cs 0).map (fun n => (n : Int))

/-- Python `int(s)` as run by app.py: a parse failure raises
`ValueError`. -/
def pyIntOfStr (s : String) : Except String Int :=
  match pyInt? s with
  | some n => Except.ok n
  | none => Except.error ("ValueError: invalid literal for int() with base 10: " ++ s)

/-- Python `int(x)` on an `Optional[str]`: `int(None)` raises
`TypeError`. -/
def pyIntOfOpt (x : Option String) : Except String Int :=
  match x with
  | none => Except.error "TypeError: int() argument must be a string, not NoneType"
  | some s => pyIntOfStr s

/-- The `try` branch, lines 18-24: read the seven keys from `st.secrets`
in program order.  `secretsAvailable = false` models
`FileNotFoundError` on first access; a missing key raises `KeyError`.
Result `none` means the exception is caught (fall back to the
environment); `some (Except.error e)` means an uncaught exception
(the `int` conversion on line 21); `some (Except.ok cfg)` is success. -/
def try_secrets (secretsAvailable : Bool)
    (secrets : String → Option String) :
    Option (Except String AppConfig) :=
  if !secretsAvailable then none
  else match secrets "OPENAI_API_KEY" with
  | none => none
  | some a =>
  match secrets "PASS_KEY" with
  | none => none
  | some p =>
  match secrets "BREVO_SERVER" with
  | none => none
  | some sv =>
  match secrets "BREVO_PORT" with
  | none => none
  | some pt =>
  match pyIntOfStr pt with
  | Except.error e => some (Except.error e)
  | Except.ok port =>
  match secrets "BREVO_USER" with
  | none => none
  | some u =>
  match secrets "BREVO_PASSWORD" with
  | none => none
  | some pw =>
  match secrets "BREVO_SENDER" with
  | none => none
  | some sd =>
    some (Except.ok
      { OPENAI_API_KEY := some a, PASS_KEY := some p,
        BREVO_SERVER := some sv, BREVO_PORT := port,
        BREVO_USER := some u, BREVO_PASSWORD := some pw,
        BREVO_SENDER := some sd })

/-- The `except` branch, lines 27-35: `load_dotenv()` then `os.getenv`
for each key (`None` when missing, with no further validation), and
`int(os.getenv("BREVO_PORT"))`, which raises when the port is missing or
malformed.  `env` is the process environment after `load_dotenv`. -/
def load_env (env : String → Option String) : Except String AppConfig :=
  match pyIntOfOpt (env "BREVO_PORT") with
  | Except.error e => Except.error e
  | Except.ok port =>
      Except.ok
        { OPENAI_API_KEY := env "OPENAI_API_KEY",
          PASS_KEY := env "PASS_KEY",
          BREVO_SERVER := env "BREVO_SERVER",
          BREVO_PORT := port,
          BREVO_USER := env "BREVO_USER",
          BREVO_PASSWORD := env "BREVO_PASSWORD",
          BREVO_SENDER := env "BREVO_SENDER" }

/-- The whole module-level configuration block, lines 17-35.
`Except.error` models the process dying with an uncaught exception
during import; `Except.ok cfg` models startup proceeding with `cfg`. -/
def loadConfig (secretsAvailable : Bool)
    (secrets env : String → Option String) : Except String AppConfig :=
  match try_secrets secretsAvailable secrets with
  | some r => r
  | none => load_env env

/-! ## Effect counting -/

/-- Is this effect an invocation of the Transcription client? -/
def isTranscribeCall : Effect → Bool
  | Effect.callTranscribe _ => true
  | _ => false

/-- Is this effect an invocation of the Summarization client? -/
def isSummarizeCall : Effect → Bool
  | Effect.callSummarize _ => true
  | _ => false

/-- Is this effect the Mail client opening its SMTP session? -/
def isMailCall : Effect → Bool
  | Effect.smtpConnect _ _ => true
  | _ => false

/-- Is this effect any interaction with an external client? -/
def isClientCall : Effect → Bool
  | Effect.callTranscribe _ => true
  | Effect.callSummarize _ => true
  | Effect.smtpConnect _ _ => true
  | Effect.smtpLogin _ => true
  | Effect.sendmail _ _ _ => true
  | _ => false

/-- Number of Transcription-client calls in a trace. -/
def countTranscribe (es : List Effect) : Nat := es.countP isTranscribeCall

/-- Number of Summarization-client calls in a trace. -/
def countSummarize (es : List Effect) : Nat := es.countP isSummarizeCall

/-- Number of Mail-client invocations in a trace. -/
def countMail (es : List Effect) : Nat := es.countP isMailCall

/-- Number of external-client interactions of any kind in a trace. -/
def countClient (es : List Effect) : Nat := es.countP isClientCall

/-! ## Branch reduction lemmas for `main_app` -/

/-- A new recording (present, non-empty, hash differing from the stored
one) takes the detection branch: the cycle is the pipeline's state and
effects, ended by `st.rerun()`. -/
theorem main_app_new_recording (cfg : SmtpConfig)
    (hashFn : List Nat → String) (today : PyDate) (email_to : String)
    (r : Recording) (tOut sOut : Except String String)
    (mOut : Except String Unit) (s : SessionState)
    (hdate : PyDate.lt expiration_date today = false)
    (hlen : 0 < r.len)
    (hnew : s.last_audio_hash.getD none ≠ some (hashFn r.bytes)) :
    main_app cfg hashFn today email_to (some r) tOut sOut mOut s =
      ((process_new_recording cfg email_to tOut sOut mOut r
          (hashFn r.bytes) (initialize_session_state s)).1,
       preUI ++ (process_new_recording cfg email_to tOut sOut mOut r
          (hashFn r.bytes) (initialize_session_state s)).2,
       Exit.rerun) := by
  simp [main_app, hdate, hlen, initialize_session_state, hnew]

/-- A recording whose hash matches the stored one takes the idempotence
branch: state untouched (beyond key initialization), straight to the
display tail. -/
theorem main_app_same_hash (cfg : SmtpConfig)
    (hashFn : List Nat → String) (today : PyDate) (email_to : String)
    (r : Recording) (tOut sOut : Except String String)
    (mOut : Except String Unit) (s : SessionState)
    (hdate : PyDate.lt expiration_date today = false)
    (hlen : 0 < r.len)
    (hsame : s.last_audio_hash.getD none = some (hashFn r.bytes)) :
    main_app cfg hashFn today email_to (some r) tOut sOut mOut s =
      (initialize_session_state s,
       preUI ++ displayTail (initialize_session_state s),
       Exit.normal) := by
  simp [main_app, hdate, hlen, initialize_session_state, hsame]

/-- No recording present: the `else` arm (lines 220-222) sets
`processing_done := False` and the cycle runs to the display tail. -/
theorem main_app_no_recording (cfg : SmtpConfig)
    (hashFn : List Nat → String) (today : PyDate) (email_to : String)
    (tOut sOut : Except String String) (mOut : Except String Unit)
    (s : SessionState)
    (hdate : PyDate.lt expiration_date today = false) :
    main_app cfg hashFn today email_to none tOut sOut mOut s =
      ({ initialize_session_state s with processing_done := some false },
       preUI ++ displayTail
         { initialize_session_state s with processing_done := some false },
       Exit.normal) := by
  simp [main_app, hdate]

/-! ## Per-stage trace facts -/

/-- The transcription stage emits exactly one Transcription call and no
other client interaction. -/
theorem transcribe_audio_trace (b : List Nat) (o : Except String String) :
    countTranscribe (transcribe_audio b o).2 = 1 ∧
    countSummarize (transcribe_audio b o).2 = 0 ∧
    countMail (transcribe_audio b o).2 = 0 := by
  cases o <;>
    simp [transcribe_audio, countTranscribe, countSummarize, countMail,
      isTranscribeCall, isSummarizeCall, isMailCall]

/-- The summarization stage emits exactly one Summarization call and no
other client interaction. -/
theorem summarize_text_trace (t : String) (o : Except String String) :
    countTranscribe (summarize_text t o).2 = 0 ∧
    countSummarize (summarize_text t o).2 = 1 ∧
    countMail (summarize_text t o).2 = 0 := by
  cases o <;>
    simp [summarize_text, countTranscribe, countSummarize, countMail,
      isTranscribeCall, isSummarizeCall, isMailCall]

/-- The mail stage opens exactly one SMTP session and emits no
transcription or summarization call. -/
theorem send_email_trace (cfg : SmtpConfig) (o : Except String Unit)
    (a b c d : String) :
    countTranscribe (send_email cfg o a b c d) = 0 ∧
    countSummarize (send_email cfg o a b c d) = 0 ∧
    countMail (send_email cfg o a b c d) = 1 := by
  cases o <;>
    simp [send_email, countTranscribe, countSummarize, countMail,
      isTranscribeCall, isSummarizeCall, isMailCall]

/-- The static pre-audio UI performs no client interaction. -/
theorem preUI_no_client : countClient preUI = 0 := by
  simp [preUI, countClient, isClientCall]

/-- The display tail performs no client interaction. -/
theorem displayTail_no_client (s : SessionState) :
    countClient (displayTail s) = 0 := by
  unfold displayTail
  rcases s.last_audio_hash.getD none with _ | v
  · simp [countClient, isClientCall]
  · by_cases hv : v ≠ "" <;> simp [hv, countClient, isClientCall]

/-- Splitting client-call counts over concatenated traces. -/
theorem countClient_append (xs ys : List Effect) :
    countClient (xs ++ ys) = countClient xs + countClient ys := by
  simp [countClient]

/-- Splitting transcription-call counts over concatenated traces. -/
theorem countTranscribe_append (xs ys : List Effect) :
    countTranscribe (xs ++ ys) = countTranscribe xs + countTranscribe ys := by
  simp [countTranscribe]

/-- Splitting summarization-call counts over concatenated traces. -/
theorem countSummarize_append (xs ys : List Effect) :
    countSummarize (xs ++ ys) = countSummarize xs + countSummarize ys := by
  simp [countSummarize]

/-- Splitting mail-call counts over concatenated traces. -/
theorem countMail_append (xs ys : List Effect) :
    countMail (xs ++ ys) = countMail xs + countMail ys := by
  simp [countMail]

/-- The pre-audio UI contains no stage call of any kind. -/
theorem preUI_counts :
    countTranscribe preUI = 0 ∧ countSummarize preUI = 0 ∧
    countMail preUI = 0 := by
  simp [preUI, countTranscribe, countSummarize, countMail,
    isTranscribeCall, isSummarizeCall, isMailCall]

/-- On any branch, the detection block calls the Transcription client
exactly once, the Summarization client at most once, and the Mail client
at most once. -/
theorem process_new_recording_counts (cfg : SmtpConfig)
    (email_to : String) (tOut sOut : Except String String)
    (mOut : Except String Unit) (r : Recording) (h : String)
    (s : SessionState) :
    countTranscribe (process_new_recording cfg email_to tOut sOut mOut
      r h s).2 = 1 ∧
    countSummarize (process_new_recording cfg email_to tOut sOut mOut
      r h s).2 ≤ 1 ∧
    countMail (process_new_recording cfg email_to tOut sOut mOut
      r h s).2 ≤ 1 := by
  unfold process_new_recording
  rcases tOut with e | t <;> rcases sOut with e2 | u <;>
    rcases mOut with e3 | m <;>
    simp only [transcribe_audio, summarize_text, send_email] <;>
    split_ifs <;>
    simp [countTranscribe, countSummarize, countMail,
      isTranscribeCall, isSummarizeCall, isMailCall]

/-- The detection block always ends by storing the new hash
(line 216). -/
theorem process_new_recording_sets_hash (cfg : SmtpConfig)
    (email_to : String) (tOut sOut : Except String String)
    (mOut : Except String Unit) (r : Recording) (h : String)
    (s : SessionState) :
    (process_new_recording cfg email_to tOut sOut mOut
      r h s).1.last_audio_hash = some (some h) := rfl

/-- Stripping the empty string yields the empty string. -/
theorem pyStrip_empty : pyStrip "" = "" := by decide

/-- Detection block when the transcription call raises: results cleared,
summarizer and mailer skipped, both the stage error and the orchestrator
warning surfaced. -/
theorem process_new_recording_transcribe_error (cfg : SmtpConfig)
    (email_to : String) (e : String) (sOut : Except String String)
    (mOut : Except String Unit) (r : Recording) (h : String)
    (s : SessionState) :
    (process_new_recording cfg email_to (Except.error e) sOut mOut
      r h s).1.transcribed_text = some "" ∧
    (process_new_recording cfg email_to (Except.error e) sOut mOut
      r h s).1.summary_text = some "" ∧
    countSummarize (process_new_recording cfg email_to (Except.error e)
      sOut mOut r h s).2 = 0 ∧
    countMail (process_new_recording cfg email_to (Except.error e)
      sOut mOut r h s).2 = 0 ∧
    Effect.warning "文字起こしが失敗しました。"
      ∈ (process_new_recording cfg email_to (Except.error e) sOut mOut
          r h s).2 ∧
    Effect.error ("文字起こし中にエラーが発生しました: " ++ e)
      ∈ (process_new_recording cfg email_to (Except.error e) sOut mOut
          r h s).2 := by
  unfold process_new_recording
  simp [transcribe_audio, pyStrip_empty, countSummarize, countMail,
    isSummarizeCall, isMailCall]

/-- Detection block when transcription returns a whitespace-only string:
the summarizer is skipped and `summary_text` is cleared. -/
theorem process_new_recording_blank_transcript (cfg : SmtpConfig)
    (email_to : String) (t : String) (sOut : Except String String)
    (mOut : Except String Unit) (r : Recording) (h : String)
    (s : SessionState) (ht : pyStrip t = "") :
    countSummarize (process_new_recording cfg email_to (Except.ok t)
      sOut mOut r h s).2 = 0 ∧
    (process_new_recording cfg email_to (Except.ok t) sOut mOut
      r h s).1.summary_text = some "" := by
  unfold process_new_recording
  simp [transcribe_audio, ht, pyStrip_empty, countSummarize, isSummarizeCall]

/-- Detection block with a non-blank transcript and summary but an empty
destination address: the mailer is skipped with a warning, the summary is
kept, and the hash is still recorded. -/
theorem process_new_recording_no_address (cfg : SmtpConfig)
    (t u : String) (mOut : Except String Unit) (r : Recording)
    (h : String) (s : SessionState)
    (ht : pyStrip t ≠ "") (_hu : pyStrip u ≠ "") :
    countMail (process_new_recording cfg "" (Except.ok t) (Except.ok u)
      mOut r h s).2 = 0 ∧
    Effect.warning "メールアドレスが未入力、または要約が空です。"
      ∈ (process_new_recording cfg "" (Except.ok t) (Except.ok u) mOut
          r h s).2 ∧
    (process_new_recording cfg "" (Except.ok t) (Except.ok u) mOut
      r h s).1.summary_text = some u := by
  unfold process_new_recording
  simp [transcribe_audio, summarize_text, ht, countMail, isMailCall]

/-! ## Witness fixtures -/

/-- A concrete SMTP configuration for witness instantiations. -/
def cfgW : SmtpConfig :=
  { BREVO_SERVER := "smtp-relay.example.com", BREVO_PORT := 587,
    BREVO_USER := "relay-user", BREVO_PASSWORD := "relay-pass",
    BREVO_SENDER := "sender@example.com" }

/-- A concrete digest function for witness instantiations. -/
def hashW : List Nat → String := fun _ => "h1"

/-- A concrete recording for witness instantiations. -/
def rW : Recording := { bytes := [82, 73, 70, 70], len := 1200 }

/-- A date before the expiration date. -/
def todayW : PyDate := { year := 2025, month := 9, day := 30 }

/-- A freshly initialized authenticated session. -/
def freshW : SessionState :=
  { password_correct := some true, transcribed_text := some "",
    summary_text := some "", last_audio_hash := some none,
    processing_done := none }

/-- An authenticated session that has already processed the recording
whose digest is "h1". -/
def doneW : SessionState :=
  { freshW with last_audio_hash := some (some "h1") }

/-! ## Claims -/

/-- C1: on a re-render cycle where a recording is present and its
fingerprint differs from the stored `last_fingerprint`, the orchestrator
calls the Transcription client exactly once, the Summarization client at
most once, and the Mail client at most once; afterwards
`last_audio_hash` equals the new fingerprint regardless of stage
outcomes, and one additional re-render is forced (`st.rerun`). -/
theorem C1_new_recording_pipeline_once (cfg : SmtpConfig)
    (hashFn : List Nat → String) (today : PyDate) (email_to : String)
    (r : Recording) (tOut sOut : Except String String)
    (mOut : Except String Unit) (s : SessionState)
    (hdate : PyDate.lt expiration_date today = false)
    (hlen : 0 < r.len)
    (hnew : s.last_audio_hash.getD none ≠ some (hashFn r.bytes)) :
    countTranscribe (main_app cfg hashFn today email_to (some r)
      tOut sOut mOut s).2.1 = 1 ∧
    countSummarize (main_app cfg hashFn today email_to (some r)
      tOut sOut mOut s).2.1 ≤ 1 ∧
    countMail (main_app cfg hashFn today email_to (some r)
      tOut sOut mOut s).2.1 ≤ 1 ∧
    (main_app cfg hashFn today email_to (some r)
      tOut sOut mOut s).1.last_audio_hash
        = some (some (hashFn r.bytes)) ∧
    (main_app cfg hashFn today email_to (some r)
      tOut sOut mOut s).2.2 = Exit.rerun := by
  rw [main_app_new_recording cfg hashFn today email_to r tOut sOut mOut s
    hdate hlen hnew]
  have hc := process_new_recording_counts cfg email_to tOut sOut mOut r
    (hashFn r.bytes) (initialize_session_state s)
  dsimp only
  refine ⟨?_, ?_, ?_,
    process_new_recording_sets_hash cfg email_to tOut sOut mOut r
      (hashFn r.bytes) (initialize_session_state s), rfl⟩
  · rw [countTranscribe_append, preUI_counts.1, hc.1]
  · rw [countSummarize_append, preUI_counts.2.1]
    simpa using hc.2.1
  · rw [countMail_append, preUI_counts.2.2]
    simpa using hc.2.2

/-- Witness for C1 at a concrete new recording. -/
theorem C1_witness :
    countTranscribe (main_app cfgW hashW todayW "a@b.com" (some rW)
      (Except.ok "hello world") (Except.ok "- greeting") (Except.ok ())
      freshW).2.1 = 1 ∧
    countSummarize (main_app cfgW hashW todayW "a@b.com" (some rW)
      (Except.ok "hello world") (Except.ok "- greeting") (Except.ok ())
      freshW).2.1 ≤ 1 ∧
    countMail (main_app cfgW hashW todayW "a@b.com" (some rW)
      (Except.ok "hello world") (Except.ok "- greeting") (Except.ok ())
      freshW).2.1 ≤ 1 ∧
    (main_app cfgW hashW todayW "a@b.com" (some rW)
      (Except.ok "hello world") (Except.ok "- greeting") (Except.ok ())
      freshW).1.last_audio_hash = some (some (hashW rW.bytes)) ∧
    (main_app cfgW hashW todayW "a@b.com" (some rW)
      (Except.ok "hello world") (Except.ok "- greeting") (Except.ok ())
      freshW).2.2 = Exit.rerun :=
  C1_new_recording_pipeline_once cfgW hashW todayW "a@b.com" rW
    (Except.ok "hello world") (Except.ok "- greeting") (Except.ok ())
    freshW (by decide) (by decide) (by decide)

/-- C2: on a re-render cycle where the present recording's fingerprint
equals the stored `last_fingerprint`, the orchestrator performs zero
external-client calls and leaves `last_audio_hash`, `transcribed_text`,
`summary_text` and `processing_done` unchanged. -/
theorem C2_same_hash_no_calls (cfg : SmtpConfig)
    (hashFn : List Nat → String) (today : PyDate) (email_to : String)
    (r : Recording) (tOut sOut : Except String String)
    (mOut : Except String Unit) (s : SessionState)
    (hdate : PyDate.lt expiration_date today = false)
    (hlen : 0 < r.len)
    (hsame : s.last_audio_hash.getD none = some (hashFn r.bytes)) :
    countClient (main_app cfg hashFn today email_to (some r)
      tOut sOut mOut s).2.1 = 0 ∧
    (main_app cfg hashFn today email_to (some r)
      tOut sOut mOut s).1.last_audio_hash.getD none
        = s.last_audio_hash.getD none ∧
    (main_app cfg hashFn today email_to (some r)
      tOut sOut mOut s).1.transcribed_text.getD ""
        = s.transcribed_text.getD "" ∧
    (main_app cfg hashFn today email_to (some r)
      tOut sOut mOut s).1.summary_text.getD ""
        = s.summary_text.getD "" ∧
    (main_app cfg hashFn today email_to (some r)
      tOut sOut mOut s).1.processing_done = s.processing_done := by
  rw [main_app_same_hash cfg hashFn today email_to r tOut sOut mOut s
    hdate hlen hsame]
  refine ⟨?_, by simp [initialize_session_state],
    by simp [initialize_session_state],
    by simp [initialize_session_state],
    by simp [initialize_session_state]⟩
  rw [countClient_append, preUI_no_client, displayTail_no_client]

/-- Witness for C2 at a concrete already-processed recording. -/
theorem C2_witness :
    countClient (main_app cfgW hashW todayW "a@b.com" (some rW)
      (Except.ok "hello world") (Except.ok "- greeting") (Except.ok ())
      doneW).2.1 = 0 ∧
    (main_app cfgW hashW todayW "a@b.com" (some rW)
      (Except.ok "hello world") (Except.ok "- greeting") (Except.ok ())
      doneW).1.last_audio_hash.getD none
        = doneW.last_audio_hash.getD none ∧
    (main_app cfgW hashW todayW "a@b.com" (some rW)
      (Except.ok "hello world") (Except.ok "- greeting") (Except.ok ())
      doneW).1.transcribed_text.getD ""
        = doneW.transcribed_text.getD "" ∧
    (main_app cfgW hashW todayW "a@b.com" (some rW)
      (Except.ok "hello world") (Except.ok "- greeting") (Except.ok ())
      doneW).1.summary_text.getD ""
        = doneW.summary_text.getD "" ∧
    (main_app cfgW hashW todayW "a@b.com" (some rW)
      (Except.ok "hello world") (Except.ok "- greeting") (Except.ok ())
      doneW).1.processing_done = doneW.processing_done :=
  C2_same_hash_no_calls cfgW hashW todayW "a@b.com" rW
    (Except.ok "hello world") (Except.ok "- greeting") (Except.ok ())
    doneW (by decide) (by decide) (by decide)

/-- C3: when the transcription call raises on a new recording, the
transcript and summary end empty, the Mail client is never invoked, the
new fingerprint is still recorded, and a warning is surfaced. -/
theorem C3_transcription_error_recovery (cfg : SmtpConfig)
    (hashFn : List Nat → String) (today : PyDate) (email_to : String)
    (r : Recording) (e : String) (sOut : Except String String)
    (mOut : Except String Unit) (s : SessionState)
    (hdate : PyDate.lt expiration_date today = false)
    (hlen : 0 < r.len)
    (hnew : s.last_audio_hash.getD none ≠ some (hashFn r.bytes)) :
    (main_app cfg hashFn today email_to (some r) (Except.error e)
      sOut mOut s).1.transcribed_text = some "" ∧
    (main_app cfg hashFn today email_to (some r) (Except.error e)
      sOut mOut s).1.summary_text = some "" ∧
    countSummarize (main_app cfg hashFn today email_to (some r)
      (Except.error e) sOut mOut s).2.1 = 0 ∧
    countMail (main_app cfg hashFn today email_to (some r)
      (Except.error e) sOut mOut s).2.1 = 0 ∧
    (main_app cfg hashFn today email_to (some r) (Except.error e)
      sOut mOut s).1.last_audio_hash = some (some (hashFn r.bytes)) ∧
    Effect.warning "文字起こしが失敗しました。"
      ∈ (main_app cfg hashFn today email_to (some r) (Except.error e)
          sOut mOut s).2.1 := by
  rw [main_app_new_recording cfg hashFn today email_to r
    (Except.error e) sOut mOut s hdate hlen hnew]
  have hp := process_new_recording_transcribe_error cfg email_to e sOut
    mOut r (hashFn r.bytes) (initialize_session_state s)
  dsimp only
  refine ⟨hp.1, hp.2.1, ?_, ?_,
    process_new_recording_sets_hash cfg email_to (Except.error e) sOut
      mOut r (hashFn r.bytes) (initialize_session_state s), ?_⟩
  · rw [countSummarize_append, preUI_counts.2.1, hp.2.2.1]
  · rw [countMail_append, preUI_counts.2.2, hp.2.2.2.1]
  · exact List.mem_append.mpr (Or.inr hp.2.2.2.2.1)

/-- Witness for C3 at a concrete failing transcription. -/
theorem C3_witness :
    (main_app cfgW hashW todayW "a@b.com" (some rW)
      (Except.error "boom") (Except.ok "- greeting") (Except.ok ())
      freshW).1.transcribed_text = some "" ∧
    (main_app cfgW hashW todayW "a@b.com" (some rW)
      (Except.error "boom") (Except.ok "- greeting") (Except.ok ())
      freshW).1.summary_text = some "" ∧
    countSummarize (main_app cfgW hashW todayW "a@b.com" (some rW)
      (Except.error "boom") (Except.ok "- greeting") (Except.ok ())
      freshW).2.1 = 0 ∧
    countMail (main_app cfgW hashW todayW "a@b.com" (some rW)
      (Except.error "boom") (Except.ok "- greeting") (Except.ok ())
      freshW).2.1 = 0 ∧
    (main_app cfgW hashW todayW "a@b.com" (some rW)
      (Except.error "boom") (Except.ok "- greeting") (Except.ok ())
      freshW).1.last_audio_hash = some (some (hashW rW.bytes)) ∧
    Effect.warning "文字起こしが失敗しました。"
      ∈ (main_app cfgW hashW todayW "a@b.com" (some rW)
          (Except.error "boom") (Except.ok "- greeting") (Except.ok ())
          freshW).2.1 :=
  C3_transcription_error_recovery cfgW hashW todayW "a@b.com" rW "boom"
    (Except.ok "- greeting") (Except.ok ()) freshW
    (by decide) (by decide) (by decide)

/-- C6: when the Transcription client returns a whitespace-only string
on a new recording, the Summarization client is never invoked and
`summary_text` stays empty. -/
theorem C6_blank_transcript_skips_summarizer (cfg : SmtpConfig)
    (hashFn : List Nat → String) (today : PyDate) (email_to : String)
    (r : Recording) (t : String) (sOut : Except String String)
    (mOut : Except String Unit) (s : SessionState)
    (hdate : PyDate.lt expiration_date today = false)
    (hlen : 0 < r.len)
    (hnew : s.last_audio_hash.getD none ≠ some (hashFn r.bytes))
    (ht : pyStrip t = "") :
    countSummarize (main_app cfg hashFn today email_to (some r)
      (Except.ok t) sOut mOut s).2.1 = 0 ∧
    (main_app cfg hashFn today email_to (some r) (Except.ok t)
      sOut mOut s).1.summary_text = some "" := by
  rw [main_app_new_recording cfg hashFn today email_to r (Except.ok t)
    sOut mOut s hdate hlen hnew]
  have hp := process_new_recording_blank_transcript cfg email_to t sOut
    mOut r (hashFn r.bytes) (initialize_session_state s) ht
  dsimp only
  exact ⟨by rw [countSummarize_append, preUI_counts.2.1, hp.1], hp.2⟩

/-- Witness for C6 at a concrete whitespace-only transcript. -/
theorem C6_witness :
    countSummarize (main_app cfgW hashW todayW "a@b.com" (some rW)
      (Except.ok "   ") (Except.ok "- greeting") (Except.ok ())
      freshW).2.1 = 0 ∧
    (main_app cfgW hashW todayW "a@b.com" (some rW) (Except.ok "   ")
      (Except.ok "- greeting") (Except.ok ())
      freshW).1.summary_text = some "" :=
  C6_blank_transcript_skips_summarizer cfgW hashW todayW "a@b.com" rW
    "   " (Except.ok "- greeting") (Except.ok ()) freshW
    (by decide) (by decide) (by decide) (by decide)

/-- C7: when a new recording yields a non-empty summary but the
destination address is empty, the Mail client is never invoked, a
warning is surfaced, the summary is kept non-empty, and the fingerprint
is still updated. -/
theorem C7_empty_address_skips_mail (cfg : SmtpConfig)
    (hashFn : List Nat → String) (today : PyDate) (r : Recording)
    (t u : String) (mOut : Except String Unit) (s : SessionState)
    (hdate : PyDate.lt expiration_date today = false)
    (hlen : 0 < r.len)
    (hnew : s.last_audio_hash.getD none ≠ some (hashFn r.bytes))
    (ht : pyStrip t ≠ "") (hu : pyStrip u ≠ "") :
    countMail (main_app cfg hashFn today "" (some r) (Except.ok t)
      (Except.ok u) mOut s).2.1 = 0 ∧
    Effect.warning "メールアドレスが未入力、または要約が空です。"
      ∈ (main_app cfg hashFn today "" (some r) (Except.ok t)
          (Except.ok u) mOut s).2.1 ∧
    pyStrip ((main_app cfg hashFn today "" (some r) (Except.ok t)
      (Except.ok u) mOut s).1.summary_text.getD "") ≠ "" ∧
    (main_app cfg hashFn today "" (some r) (Except.ok t) (Except.ok u)
      mOut s).1.last_audio_hash = some (some (hashFn r.bytes)) := by
  rw [main_app_new_recording cfg hashFn today "" r (Except.ok t)
    (Except.ok u) mOut s hdate hlen hnew]
  have hp := process_new_recording_no_address cfg t u mOut r
    (hashFn r.bytes) (initialize_session_state s) ht hu
  dsimp only
  refine ⟨by rw [countMail_append, preUI_counts.2.2, hp.1],
    List.mem_append.mpr (Or.inr hp.2.1), ?_,
    process_new_recording_sets_hash cfg "" (Except.ok t) (Except.ok u)
      mOut r (hashFn r.bytes) (initialize_session_state s)⟩
  rw [hp.2.2]
  exact hu

/-- Witness for C7 at a concrete empty destination address. -/
theorem C7_witness :
    countMail (main_app cfgW hashW todayW "" (some rW)
      (Except.ok "hello") (Except.ok "- greeting") (Except.ok ())
      freshW).2.1 = 0 ∧
    Effect.warning "メールアドレスが未入力、または要約が空です。"
      ∈ (main_app cfgW hashW todayW "" (some rW) (Except.ok "hello")
          (Except.ok "- greeting") (Except.ok ()) freshW).2.1 ∧
    pyStrip ((main_app cfgW hashW todayW "" (some rW)
      (Except.ok "hello") (Except.ok "- greeting") (Except.ok ())
      freshW).1.summary_text.getD "") ≠ "" ∧
    (main_app cfgW hashW todayW "" (some rW) (Except.ok "hello")
      (Except.ok "- greeting") (Except.ok ())
      freshW).1.last_audio_hash = some (some (hashW rW.bytes)) :=
  C7_empty_address_skips_mail cfgW hashW todayW rW "hello" "- greeting"
    (Except.ok ()) freshW (by decide) (by decide) (by decide)
    (by decide) (by decide)

/-- A recording present but empty (`len(audio_segment) = 0`) takes the
same `else` arm as no recording. -/
theorem main_app_empty_recording (cfg : SmtpConfig)
    (hashFn : List Nat → String) (today : PyDate) (email_to : String)
    (r : Recording) (tOut sOut : Except String String)
    (mOut : Except String Unit) (s : SessionState)
    (hdate : PyDate.lt expiration_date today = false)
    (hlen : ¬ 0 < r.len) :
    main_app cfg hashFn today email_to (some r) tOut sOut mOut s =
      ({ initialize_session_state s with processing_done := some false },
       preUI ++ displayTail
         { initialize_session_state s with processing_done := some false },
       Exit.normal) := by
  simp [main_app, hdate, hlen]

/-- The completion banner is in the display tail whenever the stored
hash is a truthy string. -/
theorem displayTail_banner (s : SessionState) (h : String)
    (hh : s.last_audio_hash.getD none = some h) (hne : h ≠ "") :
    Effect.success "録音 → 文字起こし → 要約 → Email送信が完了しました！"
      ∈ displayTail s := by
  unfold displayTail
  rw [hh]
  simp [hne]

/-- A date one day past the expiration date. -/
def expiredDayW : PyDate := { year := 2025, month := 10, day := 11 }

/-- A fresh unauthenticated session. -/
def unauthW : SessionState :=
  { password_correct := some false, transcribed_text := some "",
    summary_text := some "", last_audio_hash := some none,
    processing_done := none }

/-- C4 counterexample: on a date past the expiration date, a session
that has not entered the password is served the authentication page and
the application does not halt — the expiration check is not independent
of authentication. -/
theorem C4_counterexample :
    PyDate.lt expiration_date expiredDayW = true ∧
    (app_run cfgW "pw" hashW expiredDayW "" none false ""
      (Except.ok "") (Except.ok "") (Except.ok ()) unauthW).2.2
        = Exit.normal ∧
    (app_run cfgW "pw" hashW expiredDayW "" none false ""
      (Except.ok "") (Except.ok "") (Except.ok ()) unauthW).2.1
        = [Effect.title "認証ページ",
           Effect.textInput "パスワードを入力してください"] := by
  refine ⟨rfl, rfl, rfl⟩

/-- C4 amended: for every authenticated session, once the current JST
date exceeds the fixed expiration date the cycle halts (`st.stop`)
before any client call or state change; unauthenticated sessions are
instead shown the password page without the expiration check. -/
theorem C4_amended_expired_halts_when_authenticated (cfg : SmtpConfig)
    (PASS_KEY : String) (hashFn : List Nat → String) (today : PyDate)
    (email_to : String) (audio : Option Recording)
    (login_clicked : Bool) (password : String)
    (tOut sOut : Except String String) (mOut : Except String Unit)
    (s : SessionState)
    (hauth : s.password_correct.getD false = true)
    (hexp : PyDate.lt expiration_date today = true) :
    app_run cfg PASS_KEY hashFn today email_to audio login_clicked
      password tOut sOut mOut s =
      (module_init s,
       [Effect.error "このアプリケーションの利用期限（2025年10月10日）は終了しました。",
        Effect.info "ご利用ありがとうございました。"],
       Exit.stopped) := by
  unfold app_run main_app
  simp [module_init, hauth, hexp]

/-- Witness for the amended C4 at a concrete authenticated expired
session. -/
theorem C4_amended_witness :
    app_run cfgW "pw" hashW expiredDayW "" none false ""
      (Except.ok "") (Except.ok "") (Except.ok ()) freshW =
      (module_init freshW,
       [Effect.error "このアプリケーションの利用期限（2025年10月10日）は終了しました。",
        Effect.info "ご利用ありがとうございました。"],
       Exit.stopped) :=
  C4_amended_expired_halts_when_authenticated cfgW "pw" hashW
    expiredDayW "" none false "" (Except.ok "") (Except.ok "")
    (Except.ok ()) freshW (by decide) (by decide)

/-- C5 counterexample: on a cycle with no recording present the
orchestrator's `else` arm writes the session-state key
`processing_done` (here creating it), so session state is altered. -/
theorem C5_counterexample :
    freshW.processing_done = none ∧
    (main_app cfgW hashW todayW "" none (Except.ok "") (Except.ok "")
      (Except.ok ()) freshW).1.processing_done = some false ∧
    (main_app cfgW hashW todayW "" none (Except.ok "") (Except.ok "")
      (Except.ok ()) freshW).1 ≠ freshW := by
  refine ⟨rfl, rfl, ?_⟩
  decide

/-- C5 amended: with no recording present the orchestrator performs no
client call, ends the cycle normally, and leaves `last_audio_hash`,
`transcribed_text` and `summary_text` unchanged — but it does write one
session-state key, setting `processing_done` to `False`. -/
theorem C5_amended_no_recording_writes_flag_only (cfg : SmtpConfig)
    (hashFn : List Nat → String) (today : PyDate) (email_to : String)
    (tOut sOut : Except String String) (mOut : Except String Unit)
    (s : SessionState)
    (hdate : PyDate.lt expiration_date today = false) :
    countClient (main_app cfg hashFn today email_to none
      tOut sOut mOut s).2.1 = 0 ∧
    (main_app cfg hashFn today email_to none
      tOut sOut mOut s).1.last_audio_hash.getD none
        = s.last_audio_hash.getD none ∧
    (main_app cfg hashFn today email_to none
      tOut sOut mOut s).1.transcribed_text.getD ""
        = s.transcribed_text.getD "" ∧
    (main_app cfg hashFn today email_to none
      tOut sOut mOut s).1.summary_text.getD ""
        = s.summary_text.getD "" ∧
    (main_app cfg hashFn today email_to none
      tOut sOut mOut s).1.processing_done = some false ∧
    (main_app cfg hashFn today email_to none
      tOut sOut mOut s).2.2 = Exit.normal := by
  rw [main_app_no_recording cfg hashFn today email_to tOut sOut mOut s
    hdate]
  dsimp only
  refine ⟨?_, by simp [initialize_session_state],
    by simp [initialize_session_state],
    by simp [initialize_session_state], rfl, rfl⟩
  rw [countClient_append, preUI_no_client, displayTail_no_client]

/-- Witness for the amended C5 at a concrete empty capture widget. -/
theorem C5_amended_witness :
    countClient (main_app cfgW hashW todayW "" none (Except.ok "")
      (Except.ok "") (Except.ok ()) freshW).2.1 = 0 ∧
    (main_app cfgW hashW todayW "" none (Except.ok "") (Except.ok "")
      (Except.ok ()) freshW).1.last_audio_hash.getD none
        = freshW.last_audio_hash.getD none ∧
    (main_app cfgW hashW todayW "" none (Except.ok "") (Except.ok "")
      (Except.ok ()) freshW).1.transcribed_text.getD ""
        = freshW.transcribed_text.getD "" ∧
    (main_app cfgW hashW todayW "" none (Except.ok "") (Except.ok "")
      (Except.ok ()) freshW).1.summary_text.getD ""
        = freshW.summary_text.getD "" ∧
    (main_app cfgW hashW todayW "" none (Except.ok "") (Except.ok "")
      (Except.ok ()) freshW).1.processing_done = some false ∧
    (main_app cfgW hashW todayW "" none (Except.ok "") (Except.ok "")
      (Except.ok ()) freshW).2.2 = Exit.normal :=
  C5_amended_no_recording_writes_flag_only cfgW hashW todayW ""
    (Except.ok "") (Except.ok "") (Except.ok ()) freshW (by decide)

/-- C9: whenever the stored `last_audio_hash` is a truthy string and the
cycle runs to the bottom (the present recording's fingerprint matches,
so no new processing starts), the UI shows the banner claiming that
recording, transcription, summarization and email sending all completed
— for every session state, including ones whose transcript and summary
are empty because the stages failed or were skipped. -/
theorem C9_banner_shown_even_after_failures (cfg : SmtpConfig)
    (hashFn : List Nat → String) (today : PyDate) (email_to : String)
    (r : Recording) (tOut sOut : Except String String)
    (mOut : Except String Unit) (s : SessionState) (h : String)
    (hdate : PyDate.lt expiration_date today = false)
    (hhash : s.last_audio_hash.getD none = some h)
    (hne : h ≠ "")
    (hmatch : hashFn r.bytes = h) :
    Effect.success "録音 → 文字起こし → 要約 → Email送信が完了しました！"
      ∈ (main_app cfg hashFn today email_to (some r)
          tOut sOut mOut s).2.1 := by
  have hdisp : (initialize_session_state s).last_audio_hash.getD none
      = some h := by
    simp [initialize_session_state, hhash]
  by_cases hlen : 0 < r.len
  · rw [main_app_same_hash cfg hashFn today email_to r tOut sOut mOut s
      hdate hlen (by rw [hmatch]; exact hhash)]
    exact List.mem_append.mpr
      (Or.inr (displayTail_banner _ h hdisp hne))
  · rw [main_app_empty_recording cfg hashFn today email_to r tOut sOut
      mOut s hdate hlen]
    exact List.mem_append.mpr
      (Or.inr (displayTail_banner _ h (by simpa using hdisp) hne))

/-- Witness for C9: a session whose previous run failed (empty
transcript and summary) still shows the completion banner. -/
theorem C9_witness :
    Effect.success "録音 → 文字起こし → 要約 → Email送信が完了しました！"
      ∈ (main_app cfgW hashW todayW "" (some rW)
          (Except.error "boom") (Except.error "boom") (Except.ok ())
          doneW).2.1 :=
  C9_banner_shown_even_after_failures cfgW hashW todayW "" rW
    (Except.error "boom") (Except.error "boom") (Except.ok ()) doneW
    "h1" (by decide) (by decide) (by decide) (by decide)

/-- C10: every `sendmail` performed by `send_email` uses the configured
`BREVO_SENDER` as SMTP envelope sender, while the `from_address`
argument only ends up in the message's `From` header. -/
theorem C10_envelope_sender_is_brevo (cfg : SmtpConfig)
    (o : Except String Unit)
    (to_address subject body from_address envF toA : String)
    (m : MimeMessage)
    (hmem : Effect.sendmail envF toA m
      ∈ send_email cfg o to_address subject body from_address) :
    envF = cfg.BREVO_SENDER ∧ m.fromHeader = from_address := by
  cases o with
  | error e => simp [send_email] at hmem
  | ok u =>
      simp [send_email] at hmem
      obtain ⟨h1, _h2, h3⟩ := hmem
      subst h1
      subst h3
      exact ⟨rfl, rfl⟩

/-- Witness for C10 at a concrete successful send. -/
theorem C10_witness :
    "sender@example.com" = cfgW.BREVO_SENDER ∧
    (MimeMessage.mk "from@x" "a@b.com" "subj" "body").fromHeader
      = "from@x" :=
  C10_envelope_sender_is_brevo cfgW (Except.ok ()) "a@b.com" "subj"
    "body" "from@x" "sender@example.com" "a@b.com"
    (MimeMessage.mk "from@x" "a@b.com" "subj" "body") (by decide)

/-- An environment holding only the SMTP port. -/
def envPortOnly : String → Option String :=
  fun k => if k = "BREVO_PORT" then some "587" else none

/-- C8 counterexample: with every key except `BREVO_PORT` missing from
both the secrets store and the environment, module import succeeds and
the application proceeds with `None` in place of the API key, the shared
password, the SMTP credentials and the sender — startup is neither
prevented nor failed fast. -/
theorem C8_counterexample :
    envPortOnly "OPENAI_API_KEY" = none ∧
    envPortOnly "PASS_KEY" = none ∧
    loadConfig false (fun _ => none) envPortOnly =
      Except.ok
        { OPENAI_API_KEY := none, PASS_KEY := none, BREVO_SERVER := none,
          BREVO_PORT := 587, BREVO_USER := none, BREVO_PASSWORD := none,
          BREVO_SENDER := none } := by
  refine ⟨rfl, rfl, rfl⟩

/-- C8 amended: the only configuration value whose absence makes startup
fail fast is the SMTP port — `int(os.getenv("BREVO_PORT"))` raises an
uncaught `TypeError` when it is missing — while any other key missing
from both stores silently becomes `None` and startup proceeds with no
message. -/
theorem C8_amended_only_port_is_validated
    (env : String → Option String) :
    (env "BREVO_PORT" = none →
      loadConfig false (fun _ => none) env =
        Except.error
          "TypeError: int() argument must be a string, not NoneType") ∧
    (∀ pt n, env "BREVO_PORT" = some pt → pyInt? pt = some n →
      loadConfig false (fun _ => none) env =
        Except.ok
          { OPENAI_API_KEY := env "OPENAI_API_KEY",
            PASS_KEY := env "PASS_KEY",
            BREVO_SERVER := env "BREVO_SERVER",
            BREVO_PORT := n,
            BREVO_USER := env "BREVO_USER",
            BREVO_PASSWORD := env "BREVO_PASSWORD",
            BREVO_SENDER := env "BREVO_SENDER" }) := by
  constructor
  · intro h
    simp [loadConfig, try_secrets, load_env, pyIntOfOpt, h]
  · intro pt n hpt hn
    simp [loadConfig, try_secrets, load_env, pyIntOfOpt, hpt,
      pyIntOfStr, hn]

/-- Witness for the amended C8: the fully empty configuration dies on
the port conversion. -/
theorem C8_amended_witness :
    loadConfig false (fun _ => none) (fun _ => none) =
      Except.error
        "TypeError: int() argument must be a string, not NoneType" :=
  (C8_amended_only_port_is_validated (fun _ => none)).1 rfl
